import Mathlib

/-!
Shallow embedding of the flashcard-tracker data model (`app/models.py`).

The repository defines four SQLAlchemy entities (`User`, `Deck`, `Card`,
`Class`), two association tables (`UserClasses`, `CardClasses`), the
`flask_login` callback `load_user`, and a handful of accessor methods.
We embed:

* the declarative column schema of every table as explicit `Column` data,
  mirroring each `db.Column(...)` call of the source;
* each entity as a structure whose fields are its columns;
* the backing store as a `Store` of lists (one list per table), with the
  ORM relationship accessors (`Deck.cards`, `User.cards`, class membership
  and card sharing) as filters over the store, exactly as the declared
  foreign keys dictate;
* the persistence operations of the storage layer as `Store` functions
  honouring the `unique=True` declarations of the source schema
  (`user.email`, `deck.name`, `class.name`) and nothing else, since the
  source declares no other constraint;
* werkzeug's `generate_password_hash` / `check_password_hash` pair by its
  documented contract (a deterministic, injective encoding, with `check`
  comparing the stored value against the hash of the candidate); the hash
  algorithm itself is a third-party library outside the repository.
-/

namespace FlashcardTracker

/-- One table column of the declarative schema, carrying exactly the
attributes that appear in the source's `db.Column` calls: name, base type,
optional `db.String` length bound, `primary_key=True`, `unique=True`, and
an optional `db.ForeignKey` target. -/
structure Column where
  name : String
  ctype : String
  maxLength : Option Nat
  primaryKey : Bool
  unique : Bool
  foreignKey : Option String
deriving Repr, DecidableEq

/-- Columns of the `user` table, as declared in `User`. -/
def userColumns : List Column :=
  [⟨"id", "Integer", none, true, false, none⟩,
   ⟨"first_name", "String", some 30, false, false, none⟩,
   ⟨"last_name", "String", some 30, false, false, none⟩,
   ⟨"email", "String", some 40, false, true, none⟩,
   ⟨"password_hash", "String", some 128, false, false, none⟩]

/-- Columns of the `deck` table, as declared in `Deck`. -/
def deckColumns : List Column :=
  [⟨"id", "Integer", none, true, false, none⟩,
   ⟨"name", "String", some 30, false, true, none⟩,
   ⟨"owner_id", "Integer", none, false, false, some "user.id"⟩]

/-- Columns of the `card` table, as declared in `Card`. -/
def cardColumns : List Column :=
  [⟨"id", "Integer", none, true, false, none⟩,
   ⟨"front", "String", some 1200, false, false, none⟩,
   ⟨"back", "String", some 1200, false, false, none⟩,
   ⟨"deck_id", "Integer", none, false, false, some "deck.id"⟩,
   ⟨"owner_id", "Integer", none, false, false, some "user.id"⟩]

/-- Columns of the `class` table, as declared in `Class`. -/
def classColumns : List Column :=
  [⟨"id", "Integer", none, true, false, none⟩,
   ⟨"name", "String", some 30, false, true, none⟩,
   ⟨"password_hash", "String", some 128, false, false, none⟩,
   ⟨"owner_id", "Integer", none, false, false, some "user.id"⟩]

/-- Columns of the `UserClasses` association table. -/
def userClassesColumns : List Column :=
  [⟨"user_id", "Integer", none, false, false, some "user.id"⟩,
   ⟨"class_id", "Integer", none, false, false, some "class.id"⟩]

/-- Columns of the `CardClasses` association table. -/
def cardClassesColumns : List Column :=
  [⟨"card_id", "Integer", none, false, false, some "card.id"⟩,
   ⟨"class_id", "Integer", none, false, false, some "class.id"⟩]

/-- Row of the `user` table. The `id` is the primary key the storage
layer assigns; `User.__init__` sets the four remaining fields. -/
structure User where
  id : Nat
  first_name : String
  last_name : String
  email : String
  password_hash : String
deriving Repr, DecidableEq

/-- Row of the `deck` table. -/
structure Deck where
  id : Nat
  name : String
  owner_id : Nat
deriving Repr, DecidableEq

/-- Row of the `card` table. -/
structure Card where
  id : Nat
  front : String
  back : String
  deck_id : Nat
  owner_id : Nat
deriving Repr, DecidableEq

/-- Row of the `class` table. -/
structure Class where
  id : Nat
  name : String
  password_hash : String
  owner_id : Nat
deriving Repr, DecidableEq

/-- Row of the `UserClasses` association table: the two foreign keys and
nothing else. -/
structure UserClassRow where
  user_id : Nat
  class_id : Nat
deriving Repr, DecidableEq

/-- Row of the `CardClasses` association table: the two foreign keys and
nothing else. -/
structure CardClassRow where
  card_id : Nat
  class_id : Nat
deriving Repr, DecidableEq

/-- The backing relational store: one list of rows per table. -/
structure Store where
  users : List User
  decks : List Deck
  cards : List Card
  classes : List Class
  userClasses : List UserClassRow
  cardClasses : List CardClassRow
deriving Repr, DecidableEq

/-- Models werkzeug's `generate_password_hash` by its contract: a
deterministic encoding of the password from which the password can be
checked, injective on passwords and never equal to its own input (the
encoded form carries a method tag the raw password lacks). The concrete
algorithm is out of scope of the repository. -/
def generate_password_hash (password : String) : String :=
  "pbkdf2:sha256$" ++ password

/-- Models werkzeug's `check_password_hash`: true exactly when the stored
value is the hash of the candidate password. -/
def check_password_hash (pwhash password : String) : Bool :=
  pwhash == generate_password_hash password

/-- `User.__init__`: stores the four arguments verbatim, in particular the
`password_hash` argument is assigned to the field without hashing.
The `id` argument models the primary key assigned at persistence. -/
def User.make (first_name last_name email password_hash : String)
    (id : Nat) : User :=
  ⟨id, first_name, last_name, email, password_hash⟩

/-- The `password` property getter: `raise AttributeError(...)`. Reading
always produces the error, never a value. -/
def User.password (_ : User) : Except String String :=
  Except.error "password is not a readable attribute."

/-- The `password` property setter: `self.password_hash =
generate_password_hash(password)`. -/
def User.setPassword (u : User) (password : String) : User :=
  { u with password_hash := generate_password_hash password }

/-- `User.verify_password`: `check_password_hash(self.password_hash,
password)`. -/
def User.verify_password (u : User) (password : String) : Bool :=
  check_password_hash u.password_hash password

/-- `load_user(user_id)`: `User.query.get(int(user_id))` — primary-key
lookup returning the matching `User`, or `None` when no row matches. -/
def load_user (s : Store) (user_id : Nat) : Option User :=
  s.users.find? (fun u => u.id == user_id)

/-- `Deck.__init__`: stores the name and the owner reference (the foreign
key `owner_id` ends up holding the owner's id). -/
def Deck.make (name : String) (owner : User) (id : Nat) : Deck :=
  ⟨id, name, owner.id⟩

/-- The `Deck.cards` relationship: all `card` rows whose `deck_id` foreign
key references this deck. -/
def Deck.cards (d : Deck) (s : Store) : List Card :=
  s.cards.filter (fun c => c.deck_id == d.id)

/-- `Deck.list_cards(an_owner_id)`:
`Card.query.filter_by(owner_id=an_owner_id).all()` — a global query over
the card table filtered only by `owner_id`; `self` is never consulted. -/
def Deck.list_cards (_ : Deck) (s : Store) (an_owner_id : Nat) :
    List Card :=
  s.cards.filter (fun c => c.owner_id == an_owner_id)

/-- `Card.__init__`: stores front, back, the deck reference and the owner
reference (the foreign keys end up holding the referenced ids). No
validation of any kind is performed. -/
def Card.make (front back : String) (deck : Deck) (owner : User)
    (id : Nat) : Card :=
  ⟨id, front, back, deck.id, owner.id⟩

/-- The `User.cards` relationship (backref `owner` on `Card`): all `card`
rows whose `owner_id` foreign key references this user. -/
def User.cards (u : User) (s : Store) : List Card :=
  s.cards.filter (fun c => c.owner_id == u.id)

/-- `Class.__init__`: stores the name, the class-level password hash and
the owner reference. -/
def Class.make (name password_hash : String) (owner : User) (id : Nat) :
    Class :=
  ⟨id, name, password_hash, owner.id⟩

/-- The `User.user_classes` many-to-many relationship through
`UserClasses`, read from the user's side: the ids of the classes the user
is a member of. -/
def User.user_classes (u : User) (s : Store) : List Nat :=
  (s.userClasses.filter (fun r => r.user_id == u.id)).map
    (fun r => r.class_id)

/-- The membership side of `UserClasses`, read from the class's side: the
ids of the users that are members of this class. -/
def Class.members (k : Class) (s : Store) : List Nat :=
  (s.userClasses.filter (fun r => r.class_id == k.id)).map
    (fun r => r.user_id)

/-- The `Class.card_classes` many-to-many relationship through
`CardClasses`: the ids of the cards shared into this class. -/
def Class.card_classes (k : Class) (s : Store) : List Nat :=
  (s.cardClasses.filter (fun r => r.class_id == k.id)).map
    (fun r => r.card_id)

/-- Persisting a `User`: the storage layer enforces the `unique=True`
declaration on `email` and rejects a duplicate with a
uniqueness-constraint error, leaving the store untouched; otherwise the
row is appended. -/
def Store.addUser (s : Store) (u : User) : Except String Store :=
  if s.users.any (fun u0 => u0.email == u.email) then
    Except.error "UNIQUE constraint failed: user.email"
  else
    Except.ok { s with users := s.users ++ [u] }

/-- Persisting a `Deck`: the storage layer enforces the `unique=True`
declaration on `name`. -/
def Store.addDeck (s : Store) (d : Deck) : Except String Store :=
  if s.decks.any (fun d0 => d0.name == d.name) then
    Except.error "UNIQUE constraint failed: deck.name"
  else
    Except.ok { s with decks := s.decks ++ [d] }

/-- Persisting a `Class`: the storage layer enforces the `unique=True`
declaration on `name`. -/
def Store.addClass (s : Store) (k : Class) : Except String Store :=
  if s.classes.any (fun k0 => k0.name == k.name) then
    Except.error "UNIQUE constraint failed: class.name"
  else
    Except.ok { s with classes := s.classes ++ [k] }

/-- Persisting a `Card`: the `card` table declares no unique column, so
insertion always succeeds and no validation is applied. -/
def Store.addCard (s : Store) (c : Card) : Store :=
  { s with cards := s.cards ++ [c] }

/-- Inserting a `UserClasses` row: the table declares no constraint, so
insertion always succeeds, duplicates included. -/
def Store.addUserClass (s : Store) (r : UserClassRow) : Store :=
  { s with userClasses := s.userClasses ++ [r] }

/-- Deleting a `UserClasses` row: removes every matching row. -/
def Store.removeUserClass (s : Store) (r : UserClassRow) : Store :=
  { s with userClasses := s.userClasses.filter (fun r0 => r0 != r) }

/-- Inserting a `CardClasses` row: the table declares no constraint, so
insertion always succeeds, duplicates included. -/
def Store.addCardClass (s : Store) (r : CardClassRow) : Store :=
  { s with cardClasses := s.cardClasses ++ [r] }

/-- Deleting a `CardClasses` row: removes every matching row. -/
def Store.removeCardClass (s : Store) (r : CardClassRow) : Store :=
  { s with cardClasses := s.cardClasses.filter (fun r0 => r0 != r) }

/-- Concrete fixture user, following the spec's example scenario. -/
def user1 : User := User.make "Ann" "Lee" "a@x.com" "hash0" 1

/-- Concrete fixture deck owned by `user1`. -/
def deck0 : Deck := Deck.make "Spanish" user1 1

/-- Concrete fixture card in `deck0`, owned by `user1`. -/
def card0 : Card := Card.make "hola" "hello" deck0 user1 1

/-- Concrete fixture class owned by `user1`. -/
def class0 : Class := Class.make "Period1" "khash" user1 1

/-- Concrete fixture store holding the fixtures above, with `user1` a
member of `class0`. -/
def store0 : Store := ⟨[user1], [deck0], [card0], [class0], [⟨1, 1⟩], []⟩

/-- A 1201-character text, one character over the declared column bound. -/
def longText : String := String.mk (List.replicate 1201 'a')

/-- The password-hash encoding is injective: distinct passwords have
distinct hashes. -/
theorem generate_password_hash_injective :
    Function.Injective generate_password_hash := by
  intro p q h
  simp only [generate_password_hash] at h
  have hd := congrArg String.data h
  simp [String.data_append] at hd
  exact String.ext hd

/-- Claim C1: `Deck.list_cards` returns exactly the cards of the whole
store whose `owner_id` equals the given owner id; the deck the method is
called on plays no role, so the result is identical for any two decks. -/
theorem list_cards_filters_only_by_owner (s : Store) (d d' : Deck)
    (o : Nat) (c : Card) :
    (c ∈ Deck.list_cards d s o ↔ c ∈ s.cards ∧ c.owner_id = o) ∧
    Deck.list_cards d s o = Deck.list_cards d' s o := by
  constructor
  · simp [Deck.list_cards, List.mem_filter]
  · rfl

/-- Claim C2: after setting the password to `p`, verification with `p`
returns `true` and verification with any `q ≠ p` returns `false`
(verification is a total boolean function in this model, so it never
raises). -/
theorem set_password_then_verify (u : User) (p q : String) :
    (u.setPassword p).verify_password p = true ∧
    (q ≠ p → (u.setPassword p).verify_password q = false) := by
  constructor
  · simp [User.setPassword, User.verify_password, check_password_hash]
  · intro hne
    simp only [User.setPassword, User.verify_password,
      check_password_hash, beq_eq_false_iff_ne, ne_eq]
    intro h
    exact hne ((generate_password_hash_injective h).symm)

/-- Witness for claim C2 at concrete inputs. -/
theorem set_password_then_verify_witness :
    (user1.setPassword "hunter2").verify_password "hunter2" = true ∧
    (user1.setPassword "hunter2").verify_password "wrong" = false :=
  ⟨(set_password_then_verify user1 "hunter2" "wrong").1,
   (set_password_then_verify user1 "hunter2" "wrong").2 (by decide)⟩

/-- Claim C3: three independent conditionals over any store state —
persisting a `User` whose email already occurs fails with a
uniqueness-constraint error, persisting a `Deck` whose name already
occurs fails likewise, and persisting a `Class` whose name already
occurs fails likewise; in each case no new store is produced, so the
stored data is unchanged. -/
theorem unique_constraints_reject_duplicates (s : Store) (u : User)
    (d : Deck) (k : Class) :
    ((∃ u0 ∈ s.users, u0.email = u.email) →
      s.addUser u = Except.error "UNIQUE constraint failed: user.email") ∧
    ((∃ d0 ∈ s.decks, d0.name = d.name) →
      s.addDeck d = Except.error "UNIQUE constraint failed: deck.name") ∧
    ((∃ k0 ∈ s.classes, k0.name = k.name) →
      s.addClass k = Except.error "UNIQUE constraint failed: class.name") := by
  refine ⟨fun hu => ?_, fun hd => ?_, fun hk => ?_⟩
  · have hu' : s.users.any (fun u0 => u0.email == u.email) = true := by
      rw [List.any_eq_true]
      obtain ⟨u0, hm, he⟩ := hu
      exact ⟨u0, hm, by simp [he]⟩
    simp [Store.addUser, hu']
  · have hd' : s.decks.any (fun d0 => d0.name == d.name) = true := by
      rw [List.any_eq_true]
      obtain ⟨d0, hm, he⟩ := hd
      exact ⟨d0, hm, by simp [he]⟩
    simp [Store.addDeck, hd']
  · have hk' : s.classes.any (fun k0 => k0.name == k.name) = true := by
      rw [List.any_eq_true]
      obtain ⟨k0, hm, he⟩ := hk
      exact ⟨k0, hm, by simp [he]⟩
    simp [Store.addClass, hk']

/-- Witness for claim C3: duplicating the fixture email, deck name and
class name is rejected, each conditional discharged at its own concrete
input. -/
theorem unique_constraints_reject_duplicates_witness :
    store0.addUser (User.make "Bob" "Roe" "a@x.com" "h2" 2) =
      Except.error "UNIQUE constraint failed: user.email" ∧
    store0.addDeck (Deck.make "Spanish" user1 2) =
      Except.error "UNIQUE constraint failed: deck.name" ∧
    store0.addClass (Class.make "Period1" "kh2" user1 2) =
      Except.error "UNIQUE constraint failed: class.name" :=
  ⟨(unique_constraints_reject_duplicates store0
      (User.make "Bob" "Roe" "a@x.com" "h2" 2)
      (Deck.make "Spanish" user1 2)
      (Class.make "Period1" "kh2" user1 2)).1 (by decide),
   (unique_constraints_reject_duplicates store0
      (User.make "Bob" "Roe" "a@x.com" "h2" 2)
      (Deck.make "Spanish" user1 2)
      (Class.make "Period1" "kh2" user1 2)).2.1 (by decide),
   (unique_constraints_reject_duplicates store0
      (User.make "Bob" "Roe" "a@x.com" "h2" 2)
      (Deck.make "Spanish" user1 2)
      (Class.make "Period1" "kh2" user1 2)).2.2 (by decide)⟩

/-- Claim C4: each association table has exactly two columns, both
foreign keys, with no primary-key or uniqueness declaration; inserting a
row already present succeeds and adds a duplicate (its multiplicity
grows by one). -/
theorem association_tables_two_fk_no_unique :
    userClassesColumns.length = 2 ∧
    cardClassesColumns.length = 2 ∧
    (userClassesColumns.all (fun col =>
      col.foreignKey.isSome && !col.unique && !col.primaryKey)) = true ∧
    (cardClassesColumns.all (fun col =>
      col.foreignKey.isSome && !col.unique && !col.primaryKey)) = true ∧
    (∀ (s : Store) (r : UserClassRow),
      (s.addUserClass r).userClasses.count r
        = s.userClasses.count r + 1) ∧
    (∀ (s : Store) (r : CardClassRow),
      (s.addCardClass r).cardClasses.count r
        = s.cardClasses.count r + 1) := by
  refine ⟨rfl, rfl, by decide, by decide, ?_, ?_⟩
  · intro s r
    simp [Store.addUserClass, List.count_append]
  · intro s r
    simp [Store.addCardClass, List.count_append]

/-- Claim C5: a card constructed with a given deck and owner and then
persisted is in that deck's card collection and in that owner's card
collection. -/
theorem card_in_deck_and_owner_collections (s : Store) (f b : String)
    (d : Deck) (u : User) (i : Nat) :
    Card.make f b d u i ∈ Deck.cards d (s.addCard (Card.make f b d u i)) ∧
    Card.make f b d u i ∈ User.cards u (s.addCard (Card.make f b d u i)) := by
  constructor <;>
    simp [Deck.cards, User.cards, Store.addCard, Card.make,
      List.mem_filter]

/-- Claim C6, counterexample: a card whose front text has 1201 characters
is constructed unchanged and persisted unchanged — construction maintains
no 1200-character bound. -/
theorem card_length_bound_counterexample :
    (Card.make longText "b" deck0 user1 7).front.length = 1201 ∧
    ¬ (Card.make longText "b" deck0 user1 7).front.length ≤ 1200 ∧
    Card.make longText "b" deck0 user1 7 ∈
      (store0.addCard (Card.make longText "b" deck0 user1 7)).cards := by
  have hlen : (Card.make longText "b" deck0 user1 7).front.length = 1201 := by
    show (List.replicate 1201 'a').length = 1201
    rw [List.length_replicate]
  refine ⟨hlen, ?_, ?_⟩
  · rw [hlen]
    decide
  · simp [Store.addCard]

/-- Claim C6, amended: the schema declares a 1200-character bound on the
`front` and `back` columns, but card construction stores its arguments
verbatim and enforces nothing. -/
theorem card_length_bound_declared_only :
    (∃ col ∈ cardColumns, col.name = "front" ∧ col.maxLength = some 1200) ∧
    (∃ col ∈ cardColumns, col.name = "back" ∧ col.maxLength = some 1200) ∧
    ∀ (f b : String) (d : Deck) (u : User) (i : Nat),
      (Card.make f b d u i).front = f ∧ (Card.make f b d u i).back = b :=
  ⟨by decide, by decide, fun _ _ _ _ _ => ⟨rfl, rfl⟩⟩

/-- Claim C7: adding or removing a membership row leaves every class's
shared-card relation unchanged, and adding or removing a shared-card row
leaves every class's membership relation unchanged. -/
theorem membership_and_sharing_independent (s : Store) (k : Class)
    (ur : UserClassRow) (cr : CardClassRow) :
    Class.card_classes k (s.addUserClass ur) = Class.card_classes k s ∧
    Class.card_classes k (s.removeUserClass ur) = Class.card_classes k s ∧
    Class.members k (s.addCardClass cr) = Class.members k s ∧
    Class.members k (s.removeCardClass cr) = Class.members k s :=
  ⟨rfl, rfl, rfl, rfl⟩

/-- Claim C8: reading the `password` attribute always yields the
`AttributeError`, while assigning it stores the hash of the assigned
value in `password_hash`. -/
theorem password_is_write_only (u : User) (p : String) :
    u.password = Except.error "password is not a readable attribute." ∧
    (u.setPassword p).password_hash = generate_password_hash p :=
  ⟨rfl, rfl⟩

/-- Claim C9: the constructor stores its `password_hash` argument
verbatim; consequently, verifying with that same (plaintext) argument
fails, since a raw password is never equal to its own hash. -/
theorem init_keeps_password_hash_verbatim (f l e p : String) (i : Nat) :
    (User.make f l e p i).password_hash = p ∧
    (User.make f l e p i).verify_password p = false := by
  refine ⟨rfl, ?_⟩
  show check_password_hash p p = false
  simp only [check_password_hash, generate_password_hash,
    beq_eq_false_iff_ne, ne_eq]
  intro h
  have hl := congrArg String.length h
  rw [String.length_append] at hl
  have h14 : ("pbkdf2:sha256$" : String).length = 14 := rfl
  omega

/-- Claim C10: under the primary-key discipline (distinct rows have
distinct ids), `load_user` returns `none` when no user carries the id and
returns the carrying user when one does. -/
theorem load_user_lookup (s : Store) (i : Nat)
    (hids : ∀ u1 ∈ s.users, ∀ u2 ∈ s.users, u1.id = u2.id → u1 = u2) :
    ((∀ u ∈ s.users, u.id ≠ i) → load_user s i = none) ∧
    (∀ u ∈ s.users, u.id = i → load_user s i = some u) := by
  constructor
  · intro hnone
    rw [load_user, List.find?_eq_none]
    intro u hu
    simp [hnone u hu]
  · intro u hu hid
    rw [load_user]
    have hsome : (s.users.find? (fun x => x.id == i)).isSome := by
      rw [List.find?_isSome]
      exact ⟨u, hu, by simp [hid]⟩
    obtain ⟨x, hx⟩ := Option.isSome_iff_exists.mp hsome
    have hxmem := List.mem_of_find?_eq_some hx
    have hxp := List.find?_some hx
    simp only [beq_iff_eq] at hxp
    have hxu : x = u := hids x hxmem u hu (by rw [hxp, hid])
    rw [hx, hxu]

/-- Witness for claim C10: on the fixture store, a missing id yields
`none` and the fixture user's id yields that user. -/
theorem load_user_lookup_witness :
    load_user store0 99 = none ∧ load_user store0 1 = some user1 :=
  ⟨(load_user_lookup store0 99 (by decide)).1 (by decide),
   (load_user_lookup store0 1 (by decide)).2 user1 (by decide) rfl⟩

end FlashcardTracker
